import Mathlib

/-!
Verification development for the multi-provider LLM request orchestration
engine of this repository: the provider adapters (OpenAI, Anthropic,
DeepSeek), the provider registry and selection logic, the retry executor
with exponential backoff, and the fallback orchestrator.

The definitions below are a shallow embedding of the TypeScript source:
pure functions become Lean functions, the retry loop becomes a fuel-based
recursion (the fuel equals the loop bound of the source, so the zero-fuel
branch corresponds exactly to the loop falling through), thrown JavaScript
exceptions become explicit error values, and the outcome of each outbound
network call is passed in as data so that the surrounding control flow can
be analysed for every possible backend behaviour.
-/

namespace TraycerLLM

/-- The closed set of backend names, from src/llm/types.ts:
`type LLMProvider = "openai" | "anthropic" | "deepseek"`. -/
inductive LLMProvider
  | openai
  | anthropic
  | deepseek
deriving DecidableEq, Repr

/-- `LLMModel` from src/llm/types.ts. The temperature is a rational number
standing for the JavaScript float (no float arithmetic is performed on it
anywhere in the embedded code). -/
structure LLMModel where
  provider : LLMProvider
  model : String
  maxTokens : Nat
  temperature : Rat
deriving DecidableEq, Repr

/-- `LLMRequest` from src/llm/types.ts. Optional fields are `Option`;
an absent field is `none`. -/
structure LLMRequest where
  prompt : String
  systemPrompt : Option String
  model : LLMModel
  maxRetries : Option Nat
  retryDelay : Option Nat
  isFallbackAttempt : Option Bool
deriving DecidableEq, Repr

/-- The `tokensUsed` breakdown of `LLMResponse` from src/llm/types.ts. -/
structure TokenUsage where
  prompt : Nat
  completion : Nat
  total : Nat
deriving DecidableEq, Repr

/-- `LLMResponse` from src/llm/types.ts. -/
structure LLMResponse where
  content : String
  provider : LLMProvider
  model : String
  tokensUsed : Option TokenUsage
  finishReason : Option String
deriving DecidableEq, Repr

/-- `LLMError` from src/llm/types.ts: the single normalized error shape
`{message, provider, statusCode?, retryable}`. -/
structure LLMError where
  message : String
  provider : LLMProvider
  statusCode : Option Nat
  retryable : Bool
deriving DecidableEq, Repr

/-- JavaScript `a || b` for an optional number `a`: both an absent value
and the falsy number `0` select the default `b`. -/
def jsOrNat (v : Option Nat) (d : Nat) : Nat :=
  match v with
  | some n => if n = 0 then d else n
  | none => d

/-- JavaScript truthiness of an optional boolean: only `true` is truthy. -/
def jsTruthyBool (v : Option Bool) : Bool :=
  v.getD false

/-- JavaScript truthiness of an optional string: `undefined`, `null` and
the empty string are falsy. The result keeps the string when truthy. -/
def jsTruthyStr (v : Option String) : Option String :=
  match v with
  | some s => if s = "" then none else some s
  | none => none

/-- Character-list prefix test, used to state facts about which substrings
a produced error message contains. -/
def leadsWith : List Char → List Char → Bool
  | [], _ => true
  | _ :: _, [] => false
  | a :: as, b :: bs => a == b && leadsWith as bs

/-- Substring occurrence test on character lists. -/
def containsSub : List Char → List Char → Bool
  | n, [] => n.isEmpty
  | n, c :: rest => leadsWith n (c :: rest) || containsSub n rest

/-! ## OpenAI provider adapter (src/llm/providers/openai.provider.ts) -/

/-- The possible outcomes of the outbound OpenAI network call inside the
`try` block of `OpenAIProvider.generateCompletion`: an HTTP-level success
(whose message content may be absent or empty), an `OpenAI.APIError`
(whose `status` may be absent), or any other thrown exception. -/
inductive OpenAIOutcome
  | success (content : Option String) (usage : Option TokenUsage) (finishReason : Option String)
  | apiError (status : Option Nat) (message : String)
  | thrown (message : String)
deriving DecidableEq, Repr

/-- A value thrown inside the `try` block of
`OpenAIProvider.generateCompletion` and observed by its `catch`: either
the backend `OpenAI.APIError`, an `LLMError` thrown by the empty-content
check of the adapter itself, or another exception. -/
inductive OpenAICaught
  | api (status : Option Nat) (message : String)
  | llm (e : LLMError)
  | js (message : String)
deriving DecidableEq, Repr

/-- The `.message` property of a caught value. -/
def openaiCaughtMessage : OpenAICaught → String
  | .api _ m => m
  | .llm e => e.message
  | .js m => m

/-- The retryable-status test of `OpenAIProvider.generateCompletion`:
`statusCode === 429 || 500 || 502 || 503`. -/
def openaiRetryable (status : Option Nat) : Bool :=
  status == some 429 || status == some 500 || status == some 502 || status == some 503

/-- The `try` block of `OpenAIProvider.generateCompletion`: build the
response, or throw. An absent or empty `choices[0]?.message?.content`
throws an `LLMError` constructed with `retryable = true`. -/
def openaiTryBody (outcome : OpenAIOutcome) (req : LLMRequest) : Except OpenAICaught LLMResponse :=
  match outcome with
  | .apiError s m => .error (.api s m)
  | .thrown m => .error (.js m)
  | .success content usage finishReason =>
    match jsTruthyStr content with
    | none => .error (.llm ⟨"No content received from OpenAI API", .openai, none, true⟩)
    | some c => .ok ⟨c, .openai, req.model.model, usage, jsTruthyStr finishReason⟩

/-- The `catch` block of `OpenAIProvider.generateCompletion`: an
`OpenAI.APIError` is translated with the retryable-status test; every
other caught value, including the adapter's own empty-content `LLMError`,
is wrapped as a non-retryable unexpected error. -/
def openaiHandleError (e : OpenAICaught) : LLMError :=
  match e with
  | .api status m => ⟨"OpenAI API error: " ++ m, .openai, status, openaiRetryable status⟩
  | other => ⟨"Unexpected error: " ++ openaiCaughtMessage other, .openai, none, false⟩

/-- `OpenAIProvider.generateCompletion`. The `configured` flag is the
value of `isConfigured()`, that is the truthiness of the API key; the
`outcome` describes the backend behaviour of the single network call. -/
def openaiGenerateCompletion (configured : Bool) (outcome : OpenAIOutcome)
    (req : LLMRequest) : Except LLMError LLMResponse :=
  if configured = false then
    .error ⟨"OpenAI API key not configured", .openai, none, false⟩
  else
    match openaiTryBody outcome req with
    | .ok r => .ok r
    | .error e => .error (openaiHandleError e)

/-! ## Anthropic provider adapter (src/llm/providers/anthropic.provider.ts) -/

/-- Outcomes of the outbound Anthropic completions call: a success whose
`completion` text may be absent or empty, an `Anthropic.APIError`, or
another thrown exception. -/
inductive AnthropicOutcome
  | success (completion : Option String) (stopReason : Option String)
  | apiError (status : Option Nat) (message : String)
  | thrown (message : String)
deriving DecidableEq, Repr

/-- A value observed by the `catch` of
`AnthropicProvider.generateCompletion`. -/
inductive AnthropicCaught
  | api (status : Option Nat) (message : String)
  | llm (e : LLMError)
  | js (message : String)
deriving DecidableEq, Repr

/-- The `.message` property of a caught value. -/
def anthropicCaughtMessage : AnthropicCaught → String
  | .api _ m => m
  | .llm e => e.message
  | .js m => m

/-- The retryable-status test of `AnthropicProvider.generateCompletion`:
`statusCode === 429 || 529 || 500 || 502 || 503`. -/
def anthropicRetryable (status : Option Nat) : Bool :=
  status == some 429 || status == some 529 || status == some 500
    || status == some 502 || status == some 503

/-- The `try` block of `AnthropicProvider.generateCompletion`. A missing
or empty completion text throws an `LLMError` constructed with
`retryable = true`; a successful response reports a zero token usage
because the pinned SDK version does not provide one. -/
def anthropicTryBody (outcome : AnthropicOutcome) (req : LLMRequest) :
    Except AnthropicCaught LLMResponse :=
  match outcome with
  | .apiError s m => .error (.api s m)
  | .thrown m => .error (.js m)
  | .success completion stopReason =>
    match jsTruthyStr completion with
    | none => .error (.llm ⟨"No text content received from Anthropic API", .anthropic, none, true⟩)
    | some c => .ok ⟨c, .anthropic, req.model.model, some ⟨0, 0, 0⟩, jsTruthyStr stopReason⟩

/-- The `catch` block of `AnthropicProvider.generateCompletion`. -/
def anthropicHandleError (e : AnthropicCaught) : LLMError :=
  match e with
  | .api status m => ⟨"Anthropic API error: " ++ m, .anthropic, status, anthropicRetryable status⟩
  | other => ⟨"Unexpected error: " ++ anthropicCaughtMessage other, .anthropic, none, false⟩

/-- `AnthropicProvider.generateCompletion`. -/
def anthropicGenerateCompletion (configured : Bool) (outcome : AnthropicOutcome)
    (req : LLMRequest) : Except LLMError LLMResponse :=
  if configured = false then
    .error ⟨"Anthropic API key not configured", .anthropic, none, false⟩
  else
    match anthropicTryBody outcome req with
    | .ok r => .ok r
    | .error e => .error (anthropicHandleError e)

/-! ## DeepSeek provider adapter (src/llm/providers/deepseek.provider.ts) -/

/-- Outcomes of the outbound DeepSeek (OpenAI-compatible) call. The
`responseError` shape carries a truthy `error.response.status`; the
`connError` shape carries a Node error code; the `sdkError` shape carries
a truthy `error.status` from the OpenAI SDK; `thrown` is any other
exception. -/
inductive DeepSeekOutcome
  | success (content : Option String) (modelId : Option String)
      (usage : Option TokenUsage) (finishReason : Option String)
  | responseError (status : Nat) (message : String)
  | connError (code : String) (message : String)
  | sdkError (status : Nat) (message : String)
  | thrown (message : String)
deriving DecidableEq, Repr

/-- A value observed by the `catch` of
`DeepSeekProvider.generateCompletion`. -/
inductive DeepSeekCaught
  | response (status : Nat) (message : String)
  | conn (code : String) (message : String)
  | sdk (status : Nat) (message : String)
  | llm (e : LLMError)
  | js (message : String)
deriving DecidableEq, Repr

/-- `DeepSeekProvider.isRetryableError`: retry on `status >= 500`, 429,
408, 502, 503 and 504. -/
def deepseekIsRetryableError (status : Nat) : Bool :=
  decide (500 ≤ status) || status == 429 || status == 408
    || status == 502 || status == 503 || status == 504

/-- The `try` block of `DeepSeekProvider.generateCompletion`. A missing
or empty message content throws an `LLMError` constructed with
`retryable = true`; a success reports `completion.model` when truthy,
falling back to the requested model id. -/
def deepseekTryBody (outcome : DeepSeekOutcome) (req : LLMRequest) :
    Except DeepSeekCaught LLMResponse :=
  match outcome with
  | .responseError s m => .error (.response s m)
  | .connError c m => .error (.conn c m)
  | .sdkError s m => .error (.sdk s m)
  | .thrown m => .error (.js m)
  | .success content modelId usage finishReason =>
    match jsTruthyStr content with
    | none => .error (.llm ⟨"No content returned from DeepSeek API", .deepseek, none, true⟩)
    | some c =>
      .ok ⟨c, .deepseek, (jsTruthyStr modelId).getD req.model.model, usage,
           jsTruthyStr finishReason⟩

/-- The `.message` property of a caught value. -/
def deepseekCaughtMessage : DeepSeekCaught → String
  | .response _ m => m
  | .conn _ m => m
  | .sdk _ m => m
  | .llm e => e.message
  | .js m => m

/-- The `catch` block of `DeepSeekProvider.generateCompletion`, checking
in source order: `error.response.status`, then the two connection codes,
then `error.status`, then the generic non-retryable wrap. The adapter's
own empty-content `LLMError` has none of those properties and lands in
the generic branch. -/
def deepseekHandleError (e : DeepSeekCaught) : LLMError :=
  match e with
  | .response s m =>
    ⟨"DeepSeek API error: " ++ toString s ++ " " ++ m, .deepseek, some s,
     deepseekIsRetryableError s⟩
  | .conn code m =>
    if code == "ECONNREFUSED" || code == "ENOTFOUND" then
      ⟨"DeepSeek connection failed: " ++ m, .deepseek, none, true⟩
    else
      ⟨"DeepSeek unexpected error: " ++ m, .deepseek, none, false⟩
  | .sdk s m =>
    ⟨"DeepSeek API error: " ++ toString s ++ " " ++ m, .deepseek, some s,
     deepseekIsRetryableError s⟩
  | other =>
    ⟨"DeepSeek unexpected error: " ++ deepseekCaughtMessage other, .deepseek, none, false⟩

/-- `DeepSeekProvider.generateCompletion`. -/
def deepseekGenerateCompletion (configured : Bool) (outcome : DeepSeekOutcome)
    (req : LLMRequest) : Except LLMError LLMResponse :=
  if configured = false then
    .error ⟨"DeepSeek API key not configured", .deepseek, none, false⟩
  else
    match deepseekTryBody outcome req with
    | .ok r => .ok r
    | .error e => .error (deepseekHandleError e)

/-! ## Retry executor (src/llm/client.ts, `LLMClient.tryProviderWithRetry`) -/

/-- The result of one `provider.generateCompletion(...)` call as seen by
the retry executor: a response, a thrown `LLMError`, or a thrown
non-`LLMError` exception, the latter carried as the `errorMessage` string
the executor extracts from it. -/
inductive CallResult
  | ok (r : LLMResponse)
  | llmErr (e : LLMError)
  | jsErr (message : String)
deriving DecidableEq, Repr

/-- The observable outcome of one retry-executor run: the value returned
or the `LLMError` thrown, the number of `generateCompletion` calls made,
and the list of backoff waits inserted between calls, in order. -/
structure RetryOutcome where
  result : Except LLMError LLMResponse
  calls : Nat
  delays : List Nat
deriving Repr

/-- The process configuration consumed by the client (src/config/index.ts).
The three `...Configured` flags are the truthiness of the corresponding
API keys. -/
structure Config where
  openaiConfigured : Bool
  anthropicConfigured : Bool
  deepseekConfigured : Bool
  defaultLlmProvider : LLMProvider
  openaiModel : String
  anthropicModel : String
  deepseekModel : String
  llmMaxTokens : Nat
  llmTemperature : Rat
  llmMaxRetries : Nat
  llmRetryDelay : Nat
  llmEnableFallback : Bool
deriving Repr

/-- The request update at the top of `tryProviderWithRetry`:
`{...request, model: {...model, ...request.model, provider: providerName,
model: model.model}}`. Every `LLMModel` field is mandatory, so spreading
`request.model` over `model` keeps exactly the fields of `request.model`;
the provider and model id are then overridden. -/
def updatedRequestFor (name : LLMProvider) (model : LLMModel) (request : LLMRequest) :
    LLMRequest :=
  { request with model := { request.model with provider := name, model := model.model } }

/-- The `for (let attempt = 1; attempt <= maxRetries + 1; attempt++)` loop
of `tryProviderWithRetry`, with the remaining iteration budget as fuel.
The zero-fuel branch is the fall-through after the loop, which throws the
last captured error or the generic exhaustion error. One iteration: call
the provider; return a success at once; rethrow a non-retryable
`LLMError`; on a retryable `LLMError` past the final attempt, break and
throw it; otherwise wait `baseDelay * 2 ^ (attempt - 1)` and continue; a
non-`LLMError` exception is wrapped as a non-retryable unexpected error. -/
def retryGo (gen : Nat → CallResult) (name : LLMProvider) (maxRetries baseDelay : Nat) :
    Nat → Nat → Option LLMError → RetryOutcome
  | 0, _, lastError =>
    { result := .error (lastError.getD ⟨"All retry attempts exhausted", name, none, false⟩),
      calls := 0, delays := [] }
  | fuel + 1, attempt, _ =>
    match gen attempt with
    | .ok r => { result := .ok r, calls := 1, delays := [] }
    | .jsErr msg =>
      { result := .error ⟨"Unexpected error: " ++ msg, name, none, false⟩,
        calls := 1, delays := [] }
    | .llmErr e =>
      if e.retryable = false then
        { result := .error e, calls := 1, delays := [] }
      else if maxRetries < attempt then
        { result := .error e, calls := 1, delays := [] }
      else
        let rest := retryGo gen name maxRetries baseDelay fuel (attempt + 1) (some e)
        { result := rest.result, calls := rest.calls + 1,
          delays := baseDelay * 2 ^ (attempt - 1) :: rest.delays }

/-- `LLMClient.tryProviderWithRetry`. The behaviour `gen` of the adapter
receives the updated request and the attempt number of the current call.
The retry budget and base delay default from the process configuration
through the JavaScript `||` operator. -/
def tryProviderWithRetry (cfg : Config) (gen : LLMRequest → Nat → CallResult)
    (name : LLMProvider) (model : LLMModel) (request : LLMRequest) : RetryOutcome :=
  let updatedRequest := updatedRequestFor name model request
  let maxRetries := jsOrNat updatedRequest.maxRetries cfg.llmMaxRetries
  let baseDelay := jsOrNat updatedRequest.retryDelay cfg.llmRetryDelay
  retryGo (gen updatedRequest) name maxRetries baseDelay (maxRetries + 1) 1 none

/-! ## Provider registry and selection (src/llm/client.ts) -/

/-- Whether the adapter of a provider reports itself configured. -/
def isConfigured (cfg : Config) : LLMProvider → Bool
  | .openai => cfg.openaiConfigured
  | .anthropic => cfg.anthropicConfigured
  | .deepseek => cfg.deepseekConfigured

/-- The adapter registration order of the `LLMClient` constructor map:
openai, anthropic, deepseek. -/
def registeredProviders : List LLMProvider :=
  [.openai, .anthropic, .deepseek]

/-- `LLMClient.getAvailableProviders`: the configured providers in
registration order. -/
def getAvailableProviders (cfg : Config) : List LLMProvider :=
  registeredProviders.filter (isConfigured cfg)

/-- `getDefaultModels()[p]`: the per-provider default model built from
the process configuration. -/
def getDefaultModels (cfg : Config) : LLMProvider → LLMModel
  | .openai => ⟨.openai, cfg.openaiModel, cfg.llmMaxTokens, cfg.llmTemperature⟩
  | .anthropic => ⟨.anthropic, cfg.anthropicModel, cfg.llmMaxTokens, cfg.llmTemperature⟩
  | .deepseek => ⟨.deepseek, cfg.deepseekModel, cfg.llmMaxTokens, cfg.llmTemperature⟩

/-- The default-provider resolution of the `LLMClient` constructor:
the configured default identity when available, else the first available
provider, else the literal fallback `"openai"`. -/
def defaultProvider (cfg : Config) : LLMProvider :=
  if cfg.defaultLlmProvider ∈ getAvailableProviders cfg then cfg.defaultLlmProvider
  else (getAvailableProviders cfg).headD .openai

/-- A value thrown out of the client: either a normalized `LLMError` or a
plain JavaScript `Error` carrying only a message. -/
inductive ClientError
  | llm (e : LLMError)
  | plain (message : String)
deriving DecidableEq, Repr

/-- Whether a thrown client value is an `LLMError` (the
`error instanceof LLMError` test). -/
def clientErrorIsLLM : ClientError → Bool
  | .llm _ => true
  | .plain _ => false

/-- The provider and model pair resolved by `selectProvider`. -/
structure SelectedProvider where
  providerName : LLMProvider
  model : LLMModel
deriving Repr

/-- The `selectedProviderName` computation of `LLMClient.selectProvider`:
a configured preferred provider is used, otherwise the default. -/
def resolveProviderName (cfg : Config) (preferredProvider : Option LLMProvider) : LLMProvider :=
  match preferredProvider with
  | some p => if isConfigured cfg p then p else defaultProvider cfg
  | none => defaultProvider cfg

/-- `LLMClient.selectProvider`. The registry map always holds all three
adapters, so the source test `!selectedProvider` is never true and the
final guard reduces to the `isConfigured` check; an unconfigured
resolution throws a plain `Error`, not an `LLMError`. -/
def selectProvider (cfg : Config) (preferredProvider : Option LLMProvider) :
    Except ClientError SelectedProvider :=
  if isConfigured cfg (resolveProviderName cfg preferredProvider) then
    .ok ⟨resolveProviderName cfg preferredProvider,
         getDefaultModels cfg (resolveProviderName cfg preferredProvider)⟩
  else
    .error (.plain ("No LLM providers are available. Please configure API keys."))

/-! ## Fallback orchestrator (src/llm/client.ts, `generatePlanWithRetry`) -/

/-- The behaviour of the adapters during one orchestrator call: for a
provider, a request and an attempt number, the outcome of that
`generateCompletion` call. -/
def Behavior : Type :=
  LLMProvider → LLMRequest → Nat → CallResult

/-- One retry-executor invocation as recorded for analysis: the provider
driven, the request handed to the executor, and its outcome. -/
structure ExecRun where
  providerName : LLMProvider
  request : LLMRequest
  outcome : RetryOutcome
deriving Repr

/-- The lowercase wire name of a provider. -/
def providerNameString : LLMProvider → String
  | .openai => "openai"
  | .anthropic => "anthropic"
  | .deepseek => "deepseek"

/-- `Array.prototype.join(", ")` over provider names. -/
def joinProviders : List LLMProvider → String
  | [] => ""
  | [p] => providerNameString p
  | p :: rest => providerNameString p ++ ", " ++ joinProviders rest

/-- The fallback clone of the request:
`{...request, model: {...fallbackModel, ...request.model, provider:
fallbackProviderName, model: fallbackModel.model}, isFallbackAttempt:
true}`. As in `updatedRequestFor`, spreading the full `request.model`
keeps its token and temperature fields; only the provider identity and
model id come from the candidate. -/
def fallbackRequestFor (cfg : Config) (request : LLMRequest) (fb : LLMProvider) : LLMRequest :=
  { request with
    model := { request.model with provider := fb, model := (getDefaultModels cfg fb).model },
    isFallbackAttempt := some true }

/-- The retry-executor run of one fallback candidate, exactly as invoked
by the fallback loop: candidate default model, cloned request. -/
def fallbackRunOf (cfg : Config) (behavior : Behavior) (request : LLMRequest)
    (fb : LLMProvider) : RetryOutcome :=
  tryProviderWithRetry cfg (behavior fb) fb (getDefaultModels cfg fb)
    (fallbackRequestFor cfg request fb)

/-- The record of one fallback-candidate executor run. -/
def fallbackRecOf (cfg : Config) (behavior : Behavior) (request : LLMRequest)
    (fb : LLMProvider) : ExecRun :=
  ⟨fb, fallbackRequestFor cfg request fb, fallbackRunOf cfg behavior request fb⟩

/-- The `for (const fallbackProviderName of fallbackProviders)` loop:
run the retry executor for each candidate in order, return the first
success, record every run made. -/
def fallbackLoop (cfg : Config) (behavior : Behavior) (request : LLMRequest) :
    List LLMProvider → Option LLMResponse × List ExecRun
  | [] => (none, [])
  | fb :: rest =>
    match (fallbackRunOf cfg behavior request fb).result with
    | .ok r => (some r, [fallbackRecOf cfg behavior request fb])
    | .error _ =>
      let step := fallbackLoop cfg behavior request rest
      (step.1, fallbackRecOf cfg behavior request fb :: step.2)

/-- The consolidated failure message built after every fallback candidate
failed: it embeds the primary provider name, the primary failure message
and the joined candidate names, and nothing else. -/
def consolidatedMessage (primary : LLMProvider) (primaryMessage : String)
    (fallbacks : List LLMProvider) : String :=
  "All configured LLM providers failed. Primary provider " ++ providerNameString primary
    ++ " failed with: " ++ primaryMessage ++ ". Fallback providers ("
    ++ joinProviders fallbacks
    ++ ") also failed. Please check your API keys and provider status."

/-- The distinct message thrown when the recomputed available-provider
list is empty. -/
def noProvidersMessage : String :=
  "No LLM providers are configured. Please check your API keys in the environment configuration."

/-- The primary retry-executor run of an orchestrator call. -/
def primaryRunOf (cfg : Config) (behavior : Behavior) (request : LLMRequest)
    (sel : SelectedProvider) : RetryOutcome :=
  tryProviderWithRetry cfg (behavior sel.providerName) sel.providerName sel.model request

/-- The record of the primary executor run. -/
def primaryRecOf (cfg : Config) (behavior : Behavior) (request : LLMRequest)
    (sel : SelectedProvider) : ExecRun :=
  ⟨sel.providerName, request, primaryRunOf cfg behavior request sel⟩

/-- The fallback candidate list: the available providers minus the
primary, in registration order. -/
def fallbackCandidates (cfg : Config) (sel : SelectedProvider) : List LLMProvider :=
  (getAvailableProviders cfg).filter (fun p => p != sel.providerName)

/-- `LLMClient.generatePlanWithRetry`, returning the delivered result
together with the list of retry-executor runs it performed, in order.
The retry executor only ever throws `LLMError` values, so the source test
`error instanceof LLMError` on its failure is always true and the
fallback guard reduces to the fallback-enabled flag and the
`isFallbackAttempt` mark of the request. -/
def generatePlanWithRetry (cfg : Config) (behavior : Behavior) (request : LLMRequest) :
    Except ClientError LLMResponse × List ExecRun :=
  match selectProvider cfg (some request.model.provider) with
  | .error e => (.error e, [])
  | .ok sel =>
    match (primaryRunOf cfg behavior request sel).result with
    | .ok r => (.ok r, [primaryRecOf cfg behavior request sel])
    | .error e =>
      if cfg.llmEnableFallback && !(jsTruthyBool request.isFallbackAttempt) then
        match fallbackLoop cfg behavior request (fallbackCandidates cfg sel) with
        | (some r, runs) => (.ok r, primaryRecOf cfg behavior request sel :: runs)
        | (none, runs) =>
          if (getAvailableProviders cfg).length = 0 then
            (.error (.llm ⟨noProvidersMessage, sel.providerName, none, false⟩),
             primaryRecOf cfg behavior request sel :: runs)
          else
            (.error (.llm ⟨consolidatedMessage sel.providerName e.message
                             (fallbackCandidates cfg sel),
                           sel.providerName, e.statusCode, false⟩),
             primaryRecOf cfg behavior request sel :: runs)
      else
        (.error (.llm e), [primaryRecOf cfg behavior request sel])

/-- The `LLMError` delivered by an orchestrator call, when there is one. -/
def resultErrorOf (out : Except ClientError LLMResponse × List ExecRun) : Option LLMError :=
  match out.1 with
  | .error (.llm e) => some e
  | _ => none

/-- The providers driven by the recorded executor runs, in order. -/
def runProviders (runs : List ExecRun) : List LLMProvider :=
  runs.map ExecRun.providerName

/-- The retryable flag of a failed adapter call, when it failed. -/
def errRetryable (r : Except LLMError LLMResponse) : Option Bool :=
  match r with
  | .error e => some e.retryable
  | .ok _ => none

/-! ## Concrete fixtures used as test inputs for witnesses and
counterexamples -/

/-- A retryable rate-limit error fixture. -/
def errRateLimited : LLMError :=
  ⟨"rate limited", .openai, some 429, true⟩

/-- A non-retryable authentication error fixture. -/
def errBadKey : LLMError :=
  ⟨"bad key", .openai, some 401, false⟩

/-- The retryable error the fixture primary provider always produces. -/
def errPrimaryBoom : LLMError :=
  ⟨"primary boom", .openai, some 500, true⟩

/-- The retryable error the fixture fallback provider always produces. -/
def errAnthroBoom : LLMError :=
  ⟨"anthro boom", .anthropic, some 503, true⟩

/-- A successful response fixture. -/
def respOk : LLMResponse :=
  ⟨"generated plan", .openai, "gpt-4-turbo-preview", none, none⟩

/-- A model fixture whose max-token budget 77 differs from the
process-wide default 100 of `cfgW`. -/
def modelW : LLMModel :=
  ⟨.openai, "gpt-4-turbo-preview", 77, 1⟩

/-- A request fixture with every optional field absent. -/
def reqW : LLMRequest :=
  ⟨"task prompt", none, modelW, none, none, none⟩

/-- A configuration fixture: openai and anthropic configured, deepseek
not, fallback enabled, zero retries, base delay 5. -/
def cfgW : Config where
  openaiConfigured := true
  anthropicConfigured := true
  deepseekConfigured := false
  defaultLlmProvider := .openai
  openaiModel := "gpt-4-turbo-preview"
  anthropicModel := "claude-3-sonnet-20240229"
  deepseekModel := "deepseek-chat"
  llmMaxTokens := 100
  llmTemperature := 1
  llmMaxRetries := 0
  llmRetryDelay := 5
  llmEnableFallback := true

/-- `cfgW` with fallback disabled. -/
def cfgNoFb : Config :=
  { cfgW with llmEnableFallback := false }

/-- `cfgW` with every provider unconfigured. -/
def cfgNone : Config :=
  { cfgW with openaiConfigured := false, anthropicConfigured := false }

/-- `cfgW` with a positive retry budget of 3. -/
def cfgRetry : Config :=
  { cfgW with llmMaxRetries := 3 }

/-- `cfgW` with retry budget 2 and base delay 7. -/
def cfgBudget2 : Config :=
  { cfgW with llmMaxRetries := 2, llmRetryDelay := 7 }

/-- The provider selection resolved for `reqW` under the fixtures. -/
def selW : SelectedProvider :=
  ⟨.openai, getDefaultModels cfgW .openai⟩

/-- A behaviour in which every provider always fails retryably, with a
distinct message per provider. -/
def behaviorFail : Behavior := fun p _ _ =>
  match p with
  | .openai => .llmErr errPrimaryBoom
  | .anthropic => .llmErr errAnthroBoom
  | .deepseek => .llmErr ⟨"deep boom", .deepseek, none, true⟩

/-- A per-attempt behaviour: retryable failures on attempts 1 and 2, then
success. -/
def genTwoFailsThenOk : LLMRequest → Nat → CallResult := fun _ i =>
  match i with
  | 1 => .llmErr errRateLimited
  | 2 => .llmErr errRateLimited
  | _ => .ok respOk

/-- A behaviour that always fails retryably with the rate-limit error. -/
def genAlwaysRetryable : LLMRequest → Nat → CallResult := fun _ _ =>
  .llmErr errRateLimited

/-- A behaviour that fails non-retryably on every attempt. -/
def genBadKey : LLMRequest → Nat → CallResult := fun _ _ =>
  .llmErr errBadKey

/-- A behaviour that throws a non-`LLMError` exception on every attempt. -/
def genJsBoom : LLMRequest → Nat → CallResult := fun _ _ =>
  .jsErr "socket hang up"

/-- The request fixture with both retry tunables set to the falsy 0. -/
def reqZeroes : LLMRequest :=
  { reqW with maxRetries := some 0, retryDelay := some 0 }

end TraycerLLM

namespace TraycerLLM

/-! ## Retry-executor lemmas -/

/-- Unfolding: a successful call returns at once. -/
theorem retryGo_succ_ok {gen : Nat → CallResult} {name : LLMProvider} {M B fuel attempt : Nat}
    {last : Option LLMError} {r : LLMResponse} (hg : gen attempt = CallResult.ok r) :
    retryGo gen name M B (fuel + 1) attempt last =
      { result := Except.ok r, calls := 1, delays := [] } := by
  simp [retryGo, hg]

/-- Unfolding: a non-`LLMError` exception is wrapped non-retryably and
ends the run after one call. -/
theorem retryGo_succ_jsErr {gen : Nat → CallResult} {name : LLMProvider} {M B fuel attempt : Nat}
    {last : Option LLMError} {msg : String} (hg : gen attempt = CallResult.jsErr msg) :
    retryGo gen name M B (fuel + 1) attempt last =
      { result := Except.error ⟨"Unexpected error: " ++ msg, name, none, false⟩,
        calls := 1, delays := [] } := by
  simp [retryGo, hg]

/-- Unfolding: a non-retryable `LLMError` propagates at once. -/
theorem retryGo_succ_nonretry {gen : Nat → CallResult} {name : LLMProvider} {M B fuel attempt : Nat}
    {last : Option LLMError} {e : LLMError} (hg : gen attempt = CallResult.llmErr e)
    (hr : e.retryable = false) :
    retryGo gen name M B (fuel + 1) attempt last =
      { result := Except.error e, calls := 1, delays := [] } := by
  simp [retryGo, hg, hr]

/-- Unfolding: a retryable `LLMError` on the final allowed attempt breaks
the loop and is thrown as the last captured error. -/
theorem retryGo_succ_break {gen : Nat → CallResult} {name : LLMProvider} {M B fuel attempt : Nat}
    {last : Option LLMError} {e : LLMError} (hg : gen attempt = CallResult.llmErr e)
    (hr : e.retryable = true) (hgt : M < attempt) :
    retryGo gen name M B (fuel + 1) attempt last =
      { result := Except.error e, calls := 1, delays := [] } := by
  simp [retryGo, hg, hr, hgt]

/-- Unfolding: a retryable `LLMError` before the final attempt waits
`B * 2 ^ (attempt - 1)` and retries. -/
theorem retryGo_succ_retry {gen : Nat → CallResult} {name : LLMProvider} {M B fuel attempt : Nat}
    {last : Option LLMError} {e : LLMError} (hg : gen attempt = CallResult.llmErr e)
    (hr : e.retryable = true) (hle : attempt ≤ M) :
    retryGo gen name M B (fuel + 1) attempt last =
      { result := (retryGo gen name M B fuel (attempt + 1) (some e)).result,
        calls := (retryGo gen name M B fuel (attempt + 1) (some e)).calls + 1,
        delays := B * 2 ^ (attempt - 1)
          :: (retryGo gen name M B fuel (attempt + 1) (some e)).delays } := by
  simp [retryGo, hg, hr, Nat.not_lt.mpr hle]

/-- Core success lemma: starting at attempt `a + 1`, after `j` retryable
failures the loop performs `j + 1` calls, returns the success of the last
call, and waits `B * 2 ^ (a + i)` before each retry. -/
theorem retryGo_ok (gen : Nat → CallResult) (name : LLMProvider) (M B : Nat) (r : LLMResponse) :
    ∀ (j a fuel : Nat) (last : Option LLMError),
      j < fuel →
      a + 1 + j ≤ M + 1 →
      (∀ i, i < j → ∃ e, gen (a + 1 + i) = CallResult.llmErr e ∧ e.retryable = true) →
      gen (a + 1 + j) = CallResult.ok r →
      retryGo gen name M B fuel (a + 1) last =
        { result := Except.ok r, calls := j + 1,
          delays := (List.range j).map (fun i => B * 2 ^ (a + i)) } := by
  intro j
  induction j with
  | zero =>
    intro a fuel last hfuel _ _ hsucc
    match fuel, hfuel with
    | f + 1, _ =>
      rw [retryGo_succ_ok (by simpa using hsucc)]
      simp
  | succ j ih =>
    intro a fuel last hfuel hbound hfail hsucc
    match fuel, hfuel with
    | f + 1, _ =>
      obtain ⟨e, hge, hre⟩ := hfail 0 (Nat.succ_pos j)
      rw [Nat.add_zero] at hge
      rw [retryGo_succ_retry hge hre (by omega)]
      rw [ih (a + 1) f (some e) (by omega) (by omega)
        (fun i hi => by
          obtain ⟨e', h1, h2⟩ := hfail (i + 1) (by omega)
          refine ⟨e', ?_, h2⟩
          rw [show a + 1 + 1 + i = a + 1 + (i + 1) from by omega]
          exact h1)
        (by rw [show a + 1 + 1 + j = a + 1 + (j + 1) from by omega]; exact hsucc)]
      have hfun : ((fun i => B * 2 ^ (a + i)) ∘ Nat.succ) = (fun i => B * 2 ^ (a + 1 + i)) := by
        funext i
        simp only [Function.comp_apply]
        congr 1
        congr 1
        omega
      rw [RetryOutcome.mk.injEq]
      refine ⟨rfl, rfl, ?_⟩
      simp only [List.range_succ_eq_map, List.map_cons, List.map_map, hfun]
      simp

/-- Core exhaustion lemma: when every attempt from `a + 1` through the
final allowed attempt `M + 1` fails retryably, the loop makes
`M + 1 - a` calls, throws the error of the final attempt, and waits
`B * 2 ^ (a + i)` before each retry. -/
theorem retryGo_exhaust (gen : Nat → CallResult) (name : LLMProvider) (M B : Nat)
    (E : Nat → LLMError)
    (hE : ∀ i, 1 ≤ i → i ≤ M + 1 → gen i = CallResult.llmErr (E i) ∧ (E i).retryable = true) :
    ∀ (fuel a : Nat) (last : Option LLMError),
      a ≤ M →
      M + 1 - a ≤ fuel →
      retryGo gen name M B fuel (a + 1) last =
        { result := Except.error (E (M + 1)), calls := M + 1 - a,
          delays := (List.range (M - a)).map (fun i => B * 2 ^ (a + i)) } := by
  intro fuel
  induction fuel with
  | zero => intro a last ha hf; omega
  | succ f ih =>
    intro a last ha hf
    obtain ⟨hg, hr⟩ := hE (a + 1) (by omega) (by omega)
    by_cases hM : a = M
    · subst hM
      rw [retryGo_succ_break hg hr (by omega)]
      simp
    · rw [retryGo_succ_retry hg hr (by omega)]
      rw [ih (a + 1) (some (E (a + 1))) (by omega) (by omega)]
      have hfun : ((fun i => B * 2 ^ (a + i)) ∘ Nat.succ) = (fun i => B * 2 ^ (a + 1 + i)) := by
        funext i
        simp only [Function.comp_apply]
        congr 1
        congr 1
        omega
      rw [RetryOutcome.mk.injEq]
      refine ⟨rfl, by simp; omega, ?_⟩
      rw [show M - a = (M - (a + 1)) + 1 from by omega]
      simp only [List.range_succ_eq_map, List.map_cons, List.map_map, hfun]
      simp

/-! ## Registry and orchestrator lemmas -/

/-- Every provider identity is in the registration list. -/
theorem mem_registeredProviders (p : LLMProvider) : p ∈ registeredProviders := by
  cases p <;> simp [registeredProviders]

/-- A successful selection resolves to a configured provider. -/
theorem selectProvider_ok_isConfigured (cfg : Config) (pref : Option LLMProvider)
    (sel : SelectedProvider) (h : selectProvider cfg pref = Except.ok sel) :
    isConfigured cfg sel.providerName = true := by
  unfold selectProvider at h
  split at h
  · rename_i hc
    injection h with h'
    rw [← h']
    exact hc
  · exact absurd h (by simp)

/-- A successful selection reports the resolved provider name. -/
theorem selectProvider_ok_name (cfg : Config) (pref : Option LLMProvider)
    (sel : SelectedProvider) (h : selectProvider cfg pref = Except.ok sel) :
    sel.providerName = resolveProviderName cfg pref := by
  unfold selectProvider at h
  split at h
  · injection h with h'
    rw [← h']
  · exact absurd h (by simp)

/-- A successfully selected provider is in the available list. -/
theorem selectProvider_ok_mem_available (cfg : Config) (pref : Option LLMProvider)
    (sel : SelectedProvider) (h : selectProvider cfg pref = Except.ok sel) :
    sel.providerName ∈ getAvailableProviders cfg := by
  unfold getAvailableProviders
  exact List.mem_filter.mpr ⟨mem_registeredProviders _, selectProvider_ok_isConfigured cfg pref sel h⟩

/-- The fallback loop over candidates that all fail: no response, and one
recorded run per candidate, in order. -/
theorem fallbackLoop_all_fail (cfg : Config) (behavior : Behavior) (request : LLMRequest) :
    ∀ cands : List LLMProvider,
      (∀ fb ∈ cands, ∃ f, (fallbackRunOf cfg behavior request fb).result = Except.error f) →
      fallbackLoop cfg behavior request cands =
        (none, cands.map (fallbackRecOf cfg behavior request)) := by
  intro cands
  induction cands with
  | nil => intro _; rfl
  | cons fb rest ih =>
    intro hall
    obtain ⟨f, hf⟩ := hall fb (List.mem_cons_self fb rest)
    simp only [fallbackLoop, hf]
    rw [ih (fun p hp => hall p (List.mem_cons_of_mem fb hp))]
    simp

/-- The fallback loop with a first succeeding candidate `c` after a
failing prefix `pre`: the success of `c` is returned and exactly the runs
of `pre` and `c` are recorded. -/
theorem fallbackLoop_first_success (cfg : Config) (behavior : Behavior) (request : LLMRequest) :
    ∀ (pre : List LLMProvider) (c : LLMProvider) (post : List LLMProvider) (r : LLMResponse),
      (∀ fb ∈ pre, ∃ f, (fallbackRunOf cfg behavior request fb).result = Except.error f) →
      (fallbackRunOf cfg behavior request c).result = Except.ok r →
      fallbackLoop cfg behavior request (pre ++ c :: post) =
        (some r, pre.map (fallbackRecOf cfg behavior request)
                   ++ [fallbackRecOf cfg behavior request c]) := by
  intro pre
  induction pre with
  | nil =>
    intro c post r _ hsucc
    simp only [List.nil_append, fallbackLoop, hsucc, List.map_nil]
  | cons p pre ih =>
    intro c post r hpre hsucc
    obtain ⟨f, hf⟩ := hpre p (List.mem_cons_self p pre)
    simp only [List.cons_append, fallbackLoop, hf, List.append_eq]
    rw [ih c post r (fun q hq => hpre q (List.mem_cons_of_mem p hq)) hsucc]
    simp

/-- The orchestrator when fallback runs and every candidate fails: the
consolidated error and the full run record. -/
theorem generatePlan_all_fail_eq (cfg : Config) (behavior : Behavior) (request : LLMRequest)
    (sel : SelectedProvider) (e : LLMError)
    (hsel : selectProvider cfg (some request.model.provider) = Except.ok sel)
    (hEn : cfg.llmEnableFallback = true)
    (hNF : jsTruthyBool request.isFallbackAttempt = false)
    (hfail : (primaryRunOf cfg behavior request sel).result = Except.error e)
    (hall : ∀ fb ∈ fallbackCandidates cfg sel,
      ∃ f, (fallbackRunOf cfg behavior request fb).result = Except.error f) :
    generatePlanWithRetry cfg behavior request =
      (Except.error (ClientError.llm
         ⟨consolidatedMessage sel.providerName e.message (fallbackCandidates cfg sel),
          sel.providerName, e.statusCode, false⟩),
       primaryRecOf cfg behavior request sel
         :: (fallbackCandidates cfg sel).map (fallbackRecOf cfg behavior request)) := by
  have hmem := selectProvider_ok_mem_available cfg _ sel hsel
  have hne : ¬ (getAvailableProviders cfg).length = 0 := by
    intro h0
    rw [List.length_eq_zero] at h0
    rw [h0] at hmem
    simp at hmem
  simp only [generatePlanWithRetry, hsel, hfail, hEn, hNF, Bool.not_false, Bool.and_self]
  rw [fallbackLoop_all_fail cfg behavior request (fallbackCandidates cfg sel) hall]
  simp [hne]

/-- The orchestrator when fallback runs and candidate `c` is the first to
succeed: the success of `c` is delivered and exactly the primary run, the
failing prefix runs and the run of `c` are recorded. -/
theorem generatePlan_first_success_eq (cfg : Config) (behavior : Behavior) (request : LLMRequest)
    (sel : SelectedProvider) (e : LLMError) (pre : List LLMProvider) (c : LLMProvider)
    (post : List LLMProvider) (r : LLMResponse)
    (hsel : selectProvider cfg (some request.model.provider) = Except.ok sel)
    (hEn : cfg.llmEnableFallback = true)
    (hNF : jsTruthyBool request.isFallbackAttempt = false)
    (hfail : (primaryRunOf cfg behavior request sel).result = Except.error e)
    (hcand : fallbackCandidates cfg sel = pre ++ c :: post)
    (hpre : ∀ fb ∈ pre, ∃ f, (fallbackRunOf cfg behavior request fb).result = Except.error f)
    (hsucc : (fallbackRunOf cfg behavior request c).result = Except.ok r) :
    generatePlanWithRetry cfg behavior request =
      (Except.ok r,
       primaryRecOf cfg behavior request sel
         :: (pre.map (fallbackRecOf cfg behavior request)
              ++ [fallbackRecOf cfg behavior request c])) := by
  simp only [generatePlanWithRetry, hsel, hfail, hEn, hNF, Bool.not_false, Bool.and_self]
  rw [hcand, fallbackLoop_first_success cfg behavior request pre c post r hpre hsucc]
  simp

/-- The request update of the retry executor does not touch the retry
budget field. -/
theorem updatedRequestFor_maxRetries (name : LLMProvider) (model : LLMModel)
    (request : LLMRequest) :
    (updatedRequestFor name model request).maxRetries = request.maxRetries := rfl

/-- The request update of the retry executor does not touch the base
delay field. -/
theorem updatedRequestFor_retryDelay (name : LLMProvider) (model : LLMModel)
    (request : LLMRequest) :
    (updatedRequestFor name model request).retryDelay = request.retryDelay := rfl

/-! ## Claim theorems -/

/-- C1: when the adapter fails with a retryable normalized error on each
of the first k attempts, k at most the effective maxRetries, and then
succeeds, the retry executor calls generateCompletion exactly k + 1
times, returns that success, and the wait inserted before attempt i + 1
equals baseDelay * 2 ^ (i - 1) for every i from 1 to k (the list below is
indexed from 0). -/
theorem retry_executor_k_retryable_then_success
    (cfg : Config) (gen : LLMRequest → Nat → CallResult) (name : LLMProvider)
    (model : LLMModel) (request : LLMRequest) (k : Nat) (E : Nat → LLMError) (r : LLMResponse)
    (hk : k ≤ jsOrNat request.maxRetries cfg.llmMaxRetries)
    (hfail : ∀ i, 1 ≤ i → i ≤ k →
      gen (updatedRequestFor name model request) i = CallResult.llmErr (E i)
        ∧ (E i).retryable = true)
    (hsucc : gen (updatedRequestFor name model request) (k + 1) = CallResult.ok r) :
    tryProviderWithRetry cfg gen name model request =
      { result := Except.ok r, calls := k + 1,
        delays := (List.range k).map
          (fun i => jsOrNat request.retryDelay cfg.llmRetryDelay * 2 ^ i) } := by
  have h := retryGo_ok (gen (updatedRequestFor name model request)) name
      (jsOrNat request.maxRetries cfg.llmMaxRetries)
      (jsOrNat request.retryDelay cfg.llmRetryDelay) r k 0
      (jsOrNat request.maxRetries cfg.llmMaxRetries + 1) none
      (by omega) (by omega)
      (fun i hi => by
        obtain ⟨h1, h2⟩ := hfail (i + 1) (by omega) (by omega)
        exact ⟨E (i + 1), by rw [show 0 + 1 + i = i + 1 from by omega]; exact h1, h2⟩)
      (by rw [show 0 + 1 + k = k + 1 from by omega]; exact hsucc)
  simp only [Nat.zero_add] at h
  simp only [tryProviderWithRetry, updatedRequestFor_maxRetries, updatedRequestFor_retryDelay]
  exact h

/-- Witness for C1: two rate-limit failures then success under a budget
of 3 retries and base delay 5 give 3 calls and waits 5 and 10. -/
theorem retry_executor_k_retryable_then_success_witness :
    tryProviderWithRetry cfgRetry genTwoFailsThenOk LLMProvider.openai modelW reqW =
      { result := Except.ok respOk, calls := 3, delays := [5, 10] } :=
  retry_executor_k_retryable_then_success cfgRetry genTwoFailsThenOk LLMProvider.openai
    modelW reqW 2 (fun _ => errRateLimited) respOk (by decide)
    (by intro i h1 h2; interval_cases i <;> exact ⟨rfl, rfl⟩) rfl

/-- C6: a non-retryable normalized error on the first attempt propagates
at once with exactly 1 call regardless of the retry budget, and a
non-normalized exception is wrapped as a non-retryable normalized error
and propagated with exactly 1 call. -/
theorem retry_executor_single_attempt_on_nonretryable
    (cfg : Config) (gen : LLMRequest → Nat → CallResult) (name : LLMProvider)
    (model : LLMModel) (request : LLMRequest) (e : LLMError) (msg : String) :
    (gen (updatedRequestFor name model request) 1 = CallResult.llmErr e →
      e.retryable = false →
      tryProviderWithRetry cfg gen name model request =
        { result := Except.error e, calls := 1, delays := [] })
    ∧ (gen (updatedRequestFor name model request) 1 = CallResult.jsErr msg →
      tryProviderWithRetry cfg gen name model request =
        { result := Except.error ⟨"Unexpected error: " ++ msg, name, none, false⟩,
          calls := 1, delays := [] }) := by
  constructor
  · intro hg hr
    simp only [tryProviderWithRetry, updatedRequestFor_maxRetries, updatedRequestFor_retryDelay]
    exact retryGo_succ_nonretry hg hr
  · intro hg
    simp only [tryProviderWithRetry, updatedRequestFor_maxRetries, updatedRequestFor_retryDelay]
    exact retryGo_succ_jsErr hg

/-- Witness for C6: a bad-key failure and a thrown socket error each end
after exactly one call even with a budget of 3 retries. -/
theorem retry_executor_single_attempt_on_nonretryable_witness :
    (tryProviderWithRetry cfgRetry genBadKey LLMProvider.openai modelW reqW =
      { result := Except.error errBadKey, calls := 1, delays := [] })
    ∧ (tryProviderWithRetry cfgRetry genJsBoom LLMProvider.openai modelW reqW =
      { result := Except.error
          ⟨"Unexpected error: socket hang up", LLMProvider.openai, none, false⟩,
        calls := 1, delays := [] }) :=
  ⟨(retry_executor_single_attempt_on_nonretryable cfgRetry genBadKey LLMProvider.openai
      modelW reqW errBadKey ("x")).1 rfl rfl,
   (retry_executor_single_attempt_on_nonretryable cfgRetry genJsBoom LLMProvider.openai
      modelW reqW errBadKey ("socket hang up")).2 rfl⟩

/-- C9: a request with maxRetries = 0 or retryDelay = 0 is treated by the
JavaScript default `request.maxRetries || config.llmMaxRetries` (and
likewise for the delay) as if the field were absent, so such a request is
still retried up to config.llmMaxRetries times with waits based on
config.llmRetryDelay. -/
theorem retry_executor_zero_tunables_use_config
    (cfg : Config) (gen : LLMRequest → Nat → CallResult) (name : LLMProvider)
    (model : LLMModel) (request : LLMRequest) (E : Nat → LLMError)
    (h0 : request.maxRetries = some 0)
    (h0d : request.retryDelay = some 0)
    (hfail : ∀ i, 1 ≤ i → i ≤ cfg.llmMaxRetries + 1 →
      gen (updatedRequestFor name model request) i = CallResult.llmErr (E i)
        ∧ (E i).retryable = true) :
    (∀ d : Nat, jsOrNat (some 0) d = jsOrNat none d)
    ∧ tryProviderWithRetry cfg gen name model request =
      { result := Except.error (E (cfg.llmMaxRetries + 1)),
        calls := cfg.llmMaxRetries + 1,
        delays := (List.range cfg.llmMaxRetries).map
          (fun i => cfg.llmRetryDelay * 2 ^ i) } := by
  refine ⟨fun d => rfl, ?_⟩
  have h := retryGo_exhaust (gen (updatedRequestFor name model request)) name
      cfg.llmMaxRetries cfg.llmRetryDelay E (fun i h1 h2 => hfail i h1 h2)
      (cfg.llmMaxRetries + 1) 0 none (by omega) (by omega)
  simp only [Nat.zero_add, Nat.sub_zero] at h
  simp only [tryProviderWithRetry, updatedRequestFor_maxRetries, updatedRequestFor_retryDelay,
    h0, h0d]
  simpa [jsOrNat] using h

/-- Witness for C9: with maxRetries = 0 and retryDelay = 0 on the request
and a process budget of 2 retries with base delay 7, an always-retryable
failure sequence is retried twice: 3 calls and waits 7 and 14. -/
theorem retry_executor_zero_tunables_use_config_witness :
    tryProviderWithRetry cfgBudget2 genAlwaysRetryable LLMProvider.openai modelW reqZeroes =
      { result := Except.error errRateLimited, calls := 3, delays := [7, 14] } :=
  (retry_executor_zero_tunables_use_config cfgBudget2 genAlwaysRetryable LLMProvider.openai
    modelW reqZeroes (fun _ => errRateLimited) rfl rfl
    (by intro i h1 h2; exact ⟨rfl, rfl⟩)).2

/-- C3: when the request is itself marked as a fallback attempt, or when
fallback is disabled by configuration, a primary retry-executor failure
is re-thrown as-is and no other provider is invoked: the run record
holds exactly the primary run. The third guard of the source, a failure
that is not an LLMError, is unreachable here because the embedded retry
executor only ever throws LLMError values. -/
theorem orchestrator_no_fallback_when_flagged_or_disabled
    (cfg : Config) (behavior : Behavior) (request : LLMRequest)
    (sel : SelectedProvider) (e : LLMError)
    (hsel : selectProvider cfg (some request.model.provider) = Except.ok sel)
    (hfail : (primaryRunOf cfg behavior request sel).result = Except.error e)
    (hcase : jsTruthyBool request.isFallbackAttempt = true ∨ cfg.llmEnableFallback = false) :
    generatePlanWithRetry cfg behavior request =
      (Except.error (ClientError.llm e), [primaryRecOf cfg behavior request sel]) := by
  simp only [generatePlanWithRetry, hsel, hfail]
  rcases hcase with h | h <;> simp [h]

/-- Witness for C3: with fallback disabled and a failing primary, the
orchestrator delivers the primary error and records one run. -/
theorem orchestrator_no_fallback_when_flagged_or_disabled_witness :
    generatePlanWithRetry cfgNoFb behaviorFail reqW =
      (Except.error (ClientError.llm errPrimaryBoom),
       [primaryRecOf cfgNoFb behaviorFail reqW selW]) :=
  orchestrator_no_fallback_when_flagged_or_disabled cfgNoFb behaviorFail reqW selW
    errPrimaryBoom rfl rfl (Or.inr rfl)

/-- C2 counterexample: with openai and anthropic configured and always
failing, the consolidated error does not contain the final error message
of the attempted fallback provider (the string anthro boom), and the
cloned fallback request keeps the max-token budget 77 of the original
request rather than the candidate default 100 — so the claim that the
consolidated error reports the fallback providers with their respective
final error messages, and that the clone carries the candidate model
config, fails on this input. -/
theorem orchestrator_fallback_consolidated_counterexample :
    generatePlanWithRetry cfgW behaviorFail reqW =
      (Except.error (ClientError.llm
         ⟨"All configured LLM providers failed. Primary provider openai failed with: primary boom. Fallback providers (anthropic) also failed. Please check your API keys and provider status.",
          LLMProvider.openai, some 500, false⟩),
       primaryRecOf cfgW behaviorFail reqW selW
         :: [fallbackRecOf cfgW behaviorFail reqW LLMProvider.anthropic])
    ∧ containsSub ("anthro boom".data)
        ("All configured LLM providers failed. Primary provider openai failed with: primary boom. Fallback providers (anthropic) also failed. Please check your API keys and provider status.".data)
        = false
    ∧ (fallbackRequestFor cfgW reqW LLMProvider.anthropic).model.maxTokens = 77
    ∧ (getDefaultModels cfgW LLMProvider.anthropic).maxTokens = 100 :=
  ⟨rfl, by decide, rfl, rfl⟩

/-- C2 (amended): when the primary retry executor fails with a
normalized error, fallback is enabled and the request is not itself a
fallback attempt, the orchestrator iterates exactly the configured
providers other than the primary, in registration order, runs the retry
executor once per attempted candidate with a cloned request carrying the
candidate provider identity and default model id (the other model fields
are inherited from the original request) and isFallbackAttempt = true,
returns the first candidate success, and if every candidate fails raises
one consolidated normalized error whose message names the primary
provider, the primary failure message and the names of the fallback
providers attempted (their individual error messages are logged but not
included). -/
theorem orchestrator_fallback_iteration
    (cfg : Config) (behavior : Behavior) (request : LLMRequest)
    (sel : SelectedProvider) (e : LLMError)
    (hsel : selectProvider cfg (some request.model.provider) = Except.ok sel)
    (hEn : cfg.llmEnableFallback = true)
    (hNF : jsTruthyBool request.isFallbackAttempt = false)
    (hfail : (primaryRunOf cfg behavior request sel).result = Except.error e) :
    ((∀ fb ∈ fallbackCandidates cfg sel,
        ∃ f, (fallbackRunOf cfg behavior request fb).result = Except.error f) →
      generatePlanWithRetry cfg behavior request =
        (Except.error (ClientError.llm
           ⟨consolidatedMessage sel.providerName e.message (fallbackCandidates cfg sel),
            sel.providerName, e.statusCode, false⟩),
         primaryRecOf cfg behavior request sel
           :: (fallbackCandidates cfg sel).map (fallbackRecOf cfg behavior request)))
    ∧ (∀ (pre : List LLMProvider) (c : LLMProvider) (post : List LLMProvider) (r : LLMResponse),
        fallbackCandidates cfg sel = pre ++ c :: post →
        (∀ fb ∈ pre, ∃ f, (fallbackRunOf cfg behavior request fb).result = Except.error f) →
        (fallbackRunOf cfg behavior request c).result = Except.ok r →
        generatePlanWithRetry cfg behavior request =
          (Except.ok r,
           primaryRecOf cfg behavior request sel
             :: (pre.map (fallbackRecOf cfg behavior request)
                  ++ [fallbackRecOf cfg behavior request c])))
    ∧ (∀ fb : LLMProvider,
        (fallbackRequestFor cfg request fb).isFallbackAttempt = some true
        ∧ (fallbackRequestFor cfg request fb).model.provider = fb
        ∧ (fallbackRequestFor cfg request fb).model.model = (getDefaultModels cfg fb).model
        ∧ (fallbackRequestFor cfg request fb).model.maxTokens = request.model.maxTokens) :=
  ⟨fun hall => generatePlan_all_fail_eq cfg behavior request sel e hsel hEn hNF hfail hall,
   fun pre c post r hcand hpre hsucc =>
     generatePlan_first_success_eq cfg behavior request sel e pre c post r
       hsel hEn hNF hfail hcand hpre hsucc,
   fun _ => ⟨rfl, rfl, rfl, rfl⟩⟩

/-- Witness for the amended C2: the all-candidates-fail branch at the
concrete two-provider fixture. -/
theorem orchestrator_fallback_iteration_witness :
    generatePlanWithRetry cfgW behaviorFail reqW =
      (Except.error (ClientError.llm
         ⟨consolidatedMessage LLMProvider.openai ("primary boom") [LLMProvider.anthropic],
          LLMProvider.openai, some 500, false⟩),
       primaryRecOf cfgW behaviorFail reqW selW
         :: (fallbackCandidates cfgW selW).map (fallbackRecOf cfgW behaviorFail reqW)) :=
  (orchestrator_fallback_iteration cfgW behaviorFail reqW selW errPrimaryBoom
      rfl rfl rfl rfl).1
    (by
      intro fb hfb
      have hc : fallbackCandidates cfgW selW = [LLMProvider.anthropic] := rfl
      rw [hc] at hfb
      have h : fb = LLMProvider.anthropic := by simpa using hfb
      subst h
      exact ⟨errAnthroBoom, rfl⟩)

/-- C10: the consolidated error thrown after the primary and every
fallback candidate failed carries retryable = false, the primary provider
identity and the status code of the primary failure, even when every
underlying failure was retryable. -/
theorem orchestrator_consolidated_error_shape
    (cfg : Config) (behavior : Behavior) (request : LLMRequest)
    (sel : SelectedProvider) (e : LLMError)
    (hsel : selectProvider cfg (some request.model.provider) = Except.ok sel)
    (hEn : cfg.llmEnableFallback = true)
    (hNF : jsTruthyBool request.isFallbackAttempt = false)
    (hfail : (primaryRunOf cfg behavior request sel).result = Except.error e)
    (hRetry : e.retryable = true)
    (hall : ∀ fb ∈ fallbackCandidates cfg sel,
      ∃ f, (fallbackRunOf cfg behavior request fb).result = Except.error f
        ∧ f.retryable = true) :
    resultErrorOf (generatePlanWithRetry cfg behavior request) =
      some ⟨consolidatedMessage sel.providerName e.message (fallbackCandidates cfg sel),
            sel.providerName, e.statusCode, false⟩ := by
  have hall' : ∀ fb ∈ fallbackCandidates cfg sel,
      ∃ f, (fallbackRunOf cfg behavior request fb).result = Except.error f :=
    fun fb hfb => (hall fb hfb).elim (fun f hf => ⟨f, hf.1⟩)
  rw [generatePlan_all_fail_eq cfg behavior request sel e hsel hEn hNF hfail hall']
  rfl

/-- Witness for C10: at the concrete fixture both failures are retryable
yet the consolidated error is non-retryable, names the primary openai and
carries its status code 500. -/
theorem orchestrator_consolidated_error_shape_witness :
    resultErrorOf (generatePlanWithRetry cfgW behaviorFail reqW) =
      some ⟨consolidatedMessage LLMProvider.openai ("primary boom") [LLMProvider.anthropic],
            LLMProvider.openai, some 500, false⟩ :=
  orchestrator_consolidated_error_shape cfgW behaviorFail reqW selW errPrimaryBoom
    rfl rfl rfl rfl rfl
    (by
      intro fb hfb
      have hc : fallbackCandidates cfgW selW = [LLMProvider.anthropic] := rfl
      rw [hc] at hfb
      have h : fb = LLMProvider.anthropic := by simpa using hfb
      subst h
      exact ⟨errAnthroBoom, rfl, rfl⟩)

/-- C5 counterexample: with zero providers configured, selectProvider
fails, but with a plain JavaScript Error, not with the normalized
LLMError shape the claim asserts. -/
theorem selectProvider_plain_error_counterexample :
    selectProvider cfgNone none =
      Except.error (ClientError.plain ("No LLM providers are available. Please configure API keys."))
    ∧ (match selectProvider cfgNone none with
       | Except.error c => clientErrorIsLLM c
       | Except.ok _ => true) = false :=
  ⟨rfl, rfl⟩

/-- C5 (amended): whenever zero providers are configured, selectProvider
fails before any network call — the function consumes no backend
behaviour at all — but with a plain Error carrying the configuration
guidance message, not with the normalized LLMError shape. -/
theorem selectProvider_unconfigured_plain_error
    (cfg : Config) (pref : Option LLMProvider)
    (h : getAvailableProviders cfg = []) :
    selectProvider cfg pref =
      Except.error (ClientError.plain ("No LLM providers are available. Please configure API keys.")) := by
  have hall : ∀ p, isConfigured cfg p = false := by
    intro p
    by_contra hb
    have hp : isConfigured cfg p = true := by
      revert hb; cases isConfigured cfg p <;> simp
    have hm : p ∈ getAvailableProviders cfg :=
      List.mem_filter.mpr ⟨mem_registeredProviders p, hp⟩
    rw [h] at hm
    simp at hm
  unfold selectProvider
  rw [hall]
  simp

/-- Witness for the amended C5: the all-unconfigured fixture. -/
theorem selectProvider_unconfigured_plain_error_witness :
    selectProvider cfgNone none =
      Except.error (ClientError.plain ("No LLM providers are available. Please configure API keys.")) :=
  selectProvider_unconfigured_plain_error cfgNone none rfl

/-- C4 counterexample: a backend error with HTTP status 408 is translated
by the OpenAI adapter, and one with status 504 by the Anthropic adapter,
to a normalized error with retryable = false, not true as the claim
asserts for every adapter. -/
theorem adapters_timeout_statuses_not_retryable_counterexample :
    openaiGenerateCompletion true (OpenAIOutcome.apiError (some 408) ("Request timeout")) reqW =
      Except.error ⟨"OpenAI API error: Request timeout", LLMProvider.openai, some 408, false⟩
    ∧ anthropicGenerateCompletion true (AnthropicOutcome.apiError (some 504) ("Gateway timeout")) reqW =
      Except.error ⟨"Anthropic API error: Gateway timeout", LLMProvider.anthropic, some 504, false⟩ :=
  ⟨rfl, rfl⟩

/-- C4 (amended): every adapter translates backend errors with status
429, 500, 502 or 503 to retryable = true; the statuses 408 and 504 are
retryable only for the DeepSeek adapter (whose test accepts 429, 408 and
everything at least 500), and the Anthropic overloaded status 529 is
retryable for the Anthropic adapter and also for the DeepSeek adapter
(through its at-least-500 test), but not for the OpenAI adapter. -/
theorem adapters_retryable_status_classification
    (s : Nat) (m : String) (req : LLMRequest) :
    (s = 429 ∨ s = 500 ∨ s = 502 ∨ s = 503 →
      errRetryable (openaiGenerateCompletion true (OpenAIOutcome.apiError (some s) m) req)
          = some true
      ∧ errRetryable (anthropicGenerateCompletion true (AnthropicOutcome.apiError (some s) m) req)
          = some true
      ∧ errRetryable (deepseekGenerateCompletion true (DeepSeekOutcome.sdkError s m) req)
          = some true)
    ∧ (s = 408 ∨ s = 504 →
      errRetryable (openaiGenerateCompletion true (OpenAIOutcome.apiError (some s) m) req)
          = some false
      ∧ errRetryable (anthropicGenerateCompletion true (AnthropicOutcome.apiError (some s) m) req)
          = some false
      ∧ errRetryable (deepseekGenerateCompletion true (DeepSeekOutcome.sdkError s m) req)
          = some true)
    ∧ errRetryable (anthropicGenerateCompletion true (AnthropicOutcome.apiError (some 529) m) req)
        = some true
    ∧ errRetryable (deepseekGenerateCompletion true (DeepSeekOutcome.sdkError 529 m) req)
        = some true
    ∧ errRetryable (openaiGenerateCompletion true (OpenAIOutcome.apiError (some 529) m) req)
        = some false := by
  refine ⟨?_, ?_, rfl, rfl, rfl⟩
  · rintro (rfl | rfl | rfl | rfl) <;> exact ⟨rfl, rfl, rfl⟩
  · rintro (rfl | rfl) <;> exact ⟨rfl, rfl, rfl⟩

/-- Witness for the amended C4: status 429 is retryable for all three
adapters, while 408 is retryable only for DeepSeek. -/
theorem adapters_retryable_status_classification_witness :
    (errRetryable (openaiGenerateCompletion true (OpenAIOutcome.apiError (some 429) ("rate limited")) reqW)
        = some true
     ∧ errRetryable (anthropicGenerateCompletion true (AnthropicOutcome.apiError (some 429) ("rate limited")) reqW)
        = some true
     ∧ errRetryable (deepseekGenerateCompletion true (DeepSeekOutcome.sdkError 429 ("rate limited")) reqW)
        = some true)
    ∧ (errRetryable (openaiGenerateCompletion true (OpenAIOutcome.apiError (some 408) ("timeout")) reqW)
        = some false
     ∧ errRetryable (anthropicGenerateCompletion true (AnthropicOutcome.apiError (some 408) ("timeout")) reqW)
        = some false
     ∧ errRetryable (deepseekGenerateCompletion true (DeepSeekOutcome.sdkError 408 ("timeout")) reqW)
        = some true) :=
  ⟨(adapters_retryable_status_classification 429 ("rate limited") reqW).1 (Or.inl rfl),
   (adapters_retryable_status_classification 408 ("timeout") reqW).2.1 (Or.inl rfl)⟩

/-- C7: every adapter whose isConfigured flag is false fails with a
non-retryable normalized error naming the missing key, for every possible
backend behaviour — the result does not depend on the outcome argument,
so no network interaction is consulted. -/
theorem unconfigured_adapters_fail_nonretryably
    (o1 : OpenAIOutcome) (o2 : AnthropicOutcome) (o3 : DeepSeekOutcome) (req : LLMRequest) :
    openaiGenerateCompletion false o1 req =
      Except.error ⟨"OpenAI API key not configured", LLMProvider.openai, none, false⟩
    ∧ anthropicGenerateCompletion false o2 req =
      Except.error ⟨"Anthropic API key not configured", LLMProvider.anthropic, none, false⟩
    ∧ deepseekGenerateCompletion false o3 req =
      Except.error ⟨"DeepSeek API key not configured", LLMProvider.deepseek, none, false⟩ :=
  ⟨rfl, rfl, rfl⟩

/-- C8 evidence: on a backend success carrying no usable content, each
adapter constructs its empty-content LLMError with retryable = true
inside its own try block (the first, fourth and sixth conjuncts), but the
catch block of the same adapter observes that value, fails the backend
error shape tests and re-wraps it, so generateCompletion actually
propagates a normalized error with retryable = false (the remaining
conjuncts) — contradicting both the specification and the retryable =
true literal at the throw site. -/
theorem empty_response_rewrapped_nonretryable
    (u : Option TokenUsage) (fr : Option String) (mid : Option String) (req : LLMRequest) :
    openaiTryBody (OpenAIOutcome.success none u fr) req =
      Except.error (OpenAICaught.llm
        ⟨"No content received from OpenAI API", LLMProvider.openai, none, true⟩)
    ∧ openaiGenerateCompletion true (OpenAIOutcome.success none u fr) req =
      Except.error ⟨"Unexpected error: No content received from OpenAI API",
        LLMProvider.openai, none, false⟩
    ∧ openaiGenerateCompletion true (OpenAIOutcome.success (some "") u fr) req =
      Except.error ⟨"Unexpected error: No content received from OpenAI API",
        LLMProvider.openai, none, false⟩
    ∧ anthropicTryBody (AnthropicOutcome.success none fr) req =
      Except.error (AnthropicCaught.llm
        ⟨"No text content received from Anthropic API", LLMProvider.anthropic, none, true⟩)
    ∧ anthropicGenerateCompletion true (AnthropicOutcome.success none fr) req =
      Except.error ⟨"Unexpected error: No text content received from Anthropic API",
        LLMProvider.anthropic, none, false⟩
    ∧ deepseekTryBody (DeepSeekOutcome.success none mid u fr) req =
      Except.error (DeepSeekCaught.llm
        ⟨"No content returned from DeepSeek API", LLMProvider.deepseek, none, true⟩)
    ∧ deepseekGenerateCompletion true (DeepSeekOutcome.success none mid u fr) req =
      Except.error ⟨"DeepSeek unexpected error: No content returned from DeepSeek API",
        LLMProvider.deepseek, none, false⟩ :=
  ⟨rfl, rfl, rfl, rfl, rfl, rfl, rfl⟩

end TraycerLLM
